import Mathlib

/-!
Shallow embedding of `ddns_updater.py` (TentenDDNSUpdater).

The script drives a browser through a login flow and a DNS-update flow.
External collaborators (the DOM, the HTTP client, the browser engine) are
modelled as explicit environments: each call that can observe the outside
world or raise is represented by an environment field (a flag saying the
awaited call raised, or a function giving the result the outside world
returned).  Every flow-level method of the class is translated into a pure
function from its environment to its boolean result together with a trace
of the externally visible actions it performed (fills, clicks, closes),
mirroring the statement order of the Python source.
-/

/-- Lowercasing of a string, modelling Python `str.lower()` /
JavaScript `toLowerCase()` on the ASCII selector and URL strings used here. -/
def strToLower (s : String) : String := String.mk (s.data.map Char.toLower)

/-- Boolean infix (substring-as-list) test: `listInfixB needle hay` is true
iff `needle` occurs contiguously inside `hay`. -/
def listInfixB (needle : List Char) : List Char → Bool
  | [] => needle.isEmpty
  | c :: rest => needle.isPrefixOf (c :: rest) || listInfixB needle rest

/-- Substring test on strings, modelling Python `needle in hay`. -/
def strContainsB (hay needle : String) : Bool := listInfixB needle.toList hay.toList

/-- A DOM element handle as observed by the script: its tag name (as the DOM
reports it, e.g. `"INPUT"`), its inner text, and whether awaiting
`element.focus()` on it would raise. -/
structure Element where
  tagName : String
  text : String
  focusRaises : Bool
deriving DecidableEq

/-- Result of one `query_selector(selector)` call on a search scope. -/
inductive QueryResult where
  | found (e : Element)
  | notFound
  | raises
deriving DecidableEq

/-- Externally visible actions performed by the script, recorded in traces. -/
inductive Act where
  | focusAttempt (e : Element)
  | loginCall
  | gotoSettings
  | fillUsername (s : String)
  | fillPassword (s : String)
  | recaptchaPoll (result : Bool)
  | clickSubmitLogin
  | clickConfigByIp
  | fillIp (s : String)
  | clickSubmitUpdate
  | cleanupCall
  | closePage
  | closeBrowser
  | stopPlaywright
deriving DecidableEq

/-- Semantics of the JavaScript `in` operator applied to an array literal of
strings, as in the source's `el.tagName.toLowerCase() in ["input", "textarea"]`:
`s in arr` is true iff `s` is an own property key of the array, i.e. one of
the index keys `"0" .. "n-1"` or `"length"`.  (Inherited `Array.prototype`
method names are omitted: none of them is a lowercased HTML tag name.)  In
particular the operator does NOT test membership of `s` among the array's
string elements. -/
def jsInArray (s : String) (arr : List String) : Bool :=
  (s == "length") || (List.range arr.length).any (fun i => toString i == s)

/-- The check on line 155 of the source, `await element.evaluate('el =>
el.tagName.toLowerCase() in ["input", "textarea"]')`, translated with the
JavaScript semantics of `in` given by `jsInArray`. -/
def isInputLikeJS (e : Element) : Bool :=
  jsInArray (strToLower e.tagName) ["input", "textarea"]

/-- `TentenDDNSUpdater.find_element`: try each selector in order against the
scope; on a raise or a missing element continue with the next selector; on a
hit, focus the element when the input-like check succeeds (an error while
focusing is swallowed by the bare `except` and the loop continues), and
return the element.  Returns `none` with the accumulated focus attempts when
no selector yields an element.  The second component is the trace of focus
attempts performed. -/
def find_element : List String → (String → QueryResult) → Option Element × List Act
  | [], _ => (none, [])
  | sel :: rest, scope =>
    match scope sel with
    | QueryResult.raises => find_element rest scope
    | QueryResult.notFound => find_element rest scope
    | QueryResult.found e =>
      if isInputLikeJS e then
        if e.focusRaises then
          let r := find_element rest scope
          (r.1, Act.focusAttempt e :: r.2)
        else (some e, [Act.focusAttempt e])
      else (some e, [])

/-- `TentenDDNSUpdater.USERNAME_SELECTORS`. -/
def USERNAME_SELECTORS : List String :=
  ["input[name=\"username\"]",
   "input[type=\"email\"]",
   "#username",
   "input[placeholder*=\"username\" i]",
   "input[placeholder*=\"email\" i]"]

/-- `TentenDDNSUpdater.PASSWORD_SELECTORS`. -/
def PASSWORD_SELECTORS : List String :=
  ["input[name=\"password\"]",
   "input[type=\"password\"]",
   "#password"]

/-- `TentenDDNSUpdater.SUBMIT_SELECTORS`. -/
def SUBMIT_SELECTORS : List String :=
  ["button[type=\"submit\"]",
   "input[type=\"submit\"]",
   "input[name=\"submit\"]",
   "button:has-text(\"Login\")",
   "button:has-text(\"Đăng nhập\")",
   ".btn-login"]

/-- `TentenDDNSUpdater.ERROR_SELECTORS`. -/
def ERROR_SELECTORS : List String :=
  [".error", ".alert-danger", ".login-error",
   "[class*=\"error\"]", "[class*=\"alert\"]"]

/-- An HTTP response as seen by `requests.get`. -/
structure HttpResponse where
  status : Nat
  text : String
deriving DecidableEq

/-- Outcome of one `requests.get(service, timeout=10)` call: either a
response arrived, or a `requests.RequestException` (timeout, connection
error, ...) was raised. -/
inductive ServiceOutcome where
  | response (r : HttpResponse)
  | raises
deriving DecidableEq

/-- A service attempt that does not produce an HTTP 200 response: either the
request raised (failure / timeout) or the response status was not 200. -/
def serviceFails : ServiceOutcome → Bool
  | ServiceOutcome.raises => true
  | ServiceOutcome.response r => r.status != 200

/-- The fixed list of IP-echo services in `get_current_ip`, in source order. -/
def IP_SERVICES : List String :=
  ["https://api.ipify.org", "https://ifconfig.me/ip", "https://icanhazip.com"]

/-- The `for service in services` loop body of `get_current_ip`: on a
`RequestException` continue; on a response with status 200 return the
whitespace-stripped body; on any other status fall through to the next
service. -/
def getIpLoop : List ServiceOutcome → Option String
  | [] => none
  | ServiceOutcome.raises :: rest => getIpLoop rest
  | ServiceOutcome.response r :: rest =>
    if r.status == 200 then some r.text.trim else getIpLoop rest

/-- `TentenDDNSUpdater.get_current_ip`, with the network modelled as a map
from service URL to the outcome of requesting it.  When no service yields a
200 response the method raises `Exception("Could not determine public IP
address")`; the outer `except` logs and re-raises, so the error reaches the
caller. -/
def get_current_ip (outcome : String → ServiceOutcome) : Except String String :=
  match getIpLoop (IP_SERVICES.map outcome) with
  | some ip => Except.ok ip
  | none => Except.error "Could not determine public IP address"

/-- Environment of `wait_for_recaptcha_completion`: `completedAt k` is the
value the in-page completion check (the big `page.evaluate` JS block) returns
on the k-th iteration, and `sleeps k` is the duration, in milliseconds, drawn
by `random.uniform(0.5, 1.0)` for the k-th `asyncio.sleep`; the proof field
records that every such draw lies in [500 ms, 1000 ms]. -/
structure PollEnv where
  completedAt : Nat → Bool
  sleeps : Nat → Nat
  sleepsGood : ∀ n, 500 ≤ sleeps n ∧ sleeps n ≤ 1000

/-- The `while` loop of `wait_for_recaptcha_completion`, with time in
milliseconds: while the elapsed time is below the bound, run the k-th check;
on completion return `true` at once, otherwise sleep and continue.  Returns
the result together with the elapsed time at return. -/
def pollAux (env : PollEnv) (timeoutMs elapsed k : Nat) : Bool × Nat :=
  if elapsed < timeoutMs then
    if env.completedAt k then (true, elapsed)
    else pollAux env timeoutMs (elapsed + env.sleeps k) (k + 1)
  else (false, elapsed)
termination_by timeoutMs - elapsed
decreasing_by
  have h5 := (env.sleepsGood k).1
  omega

/-- `TentenDDNSUpdater.wait_for_recaptcha_completion` with its timeout given
in seconds (the source default is 30). -/
def wait_for_recaptcha_completion (env : PollEnv) (timeoutSec : Nat) : Bool × Nat :=
  pollAux env (timeoutSec * 1000) 0 0

/-- `TentenDDNSUpdater.check_login_status`: success iff the current URL,
lowercased, does not contain `"login"`; otherwise look for an error element
(logging its text when present) and report failure either way. -/
def check_login_status (url : String) (errScope : String → QueryResult) :
    Bool × List Act :=
  if !(strContainsB (strToLower url) "login") then (true, [])
  else
    match find_element ERROR_SELECTORS errScope with
    | (some _, tr) => (false, tr)
    | (none, tr) => (false, tr)

/-- Environment of one `login()` call.  Each `...Raises` flag tells whether
the corresponding awaited browser call raised (every exception is caught by
the method's `except` and turned into `False`); the `...Scope` functions give
the DOM answers to `query_selector` for the `find_element` calls, and the URL
fields give `self.page.url` at the two points it is read.  Credentials are
taken from the (assumed well-formed) loaded configuration. -/
structure LoginEnv where
  loadStartRaises : Bool
  username : String
  password : String
  gotoRaises : Bool
  urlAfterGoto : String
  waitUserSelRaises : Bool
  userScope : String → QueryResult
  fillUserRaises : Bool
  passScope : String → QueryResult
  fillPassRaises : Bool
  submitScope : String → QueryResult
  loadPreSubmitRaises : Bool
  poll : PollEnv
  clickRaises : Bool
  loadPostSubmitRaises : Bool
  urlAfterSubmit : String
  errScope : String → QueryResult
  gotoAfterRaises : Bool
  loadFinalRaises : Bool

/-- Tail of `login` from the `submit_btn.click()` call on (source lines
270-280): the input trace `t` already records the recaptcha poll and the
click attempt.  Wait for the post-submit navigation, run
`check_login_status`, and on success navigate back to the DNS settings page;
a raise at any point is caught by `login`'s `except` and yields `False`. -/
def loginSubmitPhase (env : LoginEnv) (t : List Act) : Bool × List Act :=
  if env.clickRaises then (false, t)
  else if env.loadPostSubmitRaises then (false, t)
  else
    let cls := check_login_status env.urlAfterSubmit env.errScope
    let t6 := t ++ cls.2
    if !cls.1 then (false, t6)
    else if env.gotoAfterRaises then (false, t6 ++ [Act.gotoSettings])
    else
      let t7 := t6 ++ [Act.gotoSettings]
      if env.loadFinalRaises then (false, t7)
      else (true, t7)

/-- Middle of `login`, from `wait_for_selector` to the submit click (source
lines 243-270): locate and fill the username and password fields, locate the
submit control (each absence raises, caught into `False`), wait for network
idle, run the recaptcha poll — whose boolean outcome is recorded in the
trace but never tested — then attempt the submit click and continue with
`loginSubmitPhase`. -/
def loginFormPhase (env : LoginEnv) (t : List Act) : Bool × List Act :=
  if env.waitUserSelRaises then (false, t)
  else
    match find_element USERNAME_SELECTORS env.userScope with
    | (none, ftr) => (false, t ++ ftr)
    | (some _, ftr) =>
      let t2 := t ++ ftr ++ [Act.fillUsername env.username]
      if env.fillUserRaises then (false, t2)
      else
        match find_element PASSWORD_SELECTORS env.passScope with
        | (none, ftr2) => (false, t2 ++ ftr2)
        | (some _, ftr2) =>
          let t3 := t2 ++ ftr2 ++ [Act.fillPassword env.password]
          if env.fillPassRaises then (false, t3)
          else
            match find_element SUBMIT_SELECTORS env.submitScope with
            | (none, ftr3) => (false, t3 ++ ftr3)
            | (some _, ftr3) =>
              let t4 := t3 ++ ftr3
              if env.loadPreSubmitRaises then (false, t4)
              else
                let pres := wait_for_recaptcha_completion env.poll 30
                loginSubmitPhase env
                  (t4 ++ [Act.recaptchaPoll pres.1, Act.clickSubmitLogin])

/-- Body of `TentenDDNSUpdater.login`, statement by statement (the leading
`Act.loginCall` marker is added by `login` itself): wait for network idle,
navigate to the DNS settings URL, return `True` at once when the URL does
not indicate a login page, and otherwise run the form phase. -/
def loginBody (env : LoginEnv) : Bool × List Act :=
  if env.loadStartRaises then (false, [])
  else if env.gotoRaises then (false, [Act.gotoSettings])
  else if !(strContainsB (strToLower env.urlAfterGoto) "login") then
    (true, [Act.gotoSettings])
  else loginFormPhase env [Act.gotoSettings]

/-- `TentenDDNSUpdater.login`: one invocation of the login flow; the trace
starts with an `Act.loginCall` marker recording the invocation itself. -/
def login (env : LoginEnv) : Bool × List Act :=
  let r := loginBody env
  (r.1, Act.loginCall :: r.2)

/-- Environment of one `update_dns_record` call, with the same conventions as
`LoginEnv`.  `rowProbe sel` is the outcome of `wait_for_selector(sel,
timeout=1000)` in the existing-row probe: `some e` when the selector resolved
to an element, `none` when it timed out or raised (the bare `except`
continues the loop either way). -/
structure UpdateEnv where
  configByIpBtnText : String
  loadARaises : Bool
  loadBRaises : Bool
  rowProbe : String → Option Element
  btnScope : String → QueryResult
  btnClickRaises : Bool
  inputScope : String → QueryResult
  fillIpRaises : Bool
  sendScope : String → QueryResult
  sendClickRaises : Bool
  loadCRaises : Bool

/-- The `domain_selectors` list built in `update_dns_record` from the target
IP by f-string interpolation. -/
def domain_selectors (new_ip : String) : List String :=
  ["tr:has-text(\"" ++ new_ip ++ "\")",
   "td:has-text(\"" ++ new_ip ++ "\")"]

/-- The `configuration_by_ip_selectors` list built in `update_dns_record`
from the configured button text. -/
def configuration_by_ip_selectors (btnText : String) : List String :=
  ["tr:has-text(\"" ++ btnText ++ "\")",
   "li.ip_popup > a",
   "li:has-text(\"" ++ btnText ++ "\") a"]

/-- The `for selector in domain_selectors` probe loop of `update_dns_record`:
true (`is_exiting_domain` in the source) iff some probed selector resolves to
an element, stopping at the first hit. -/
def probeRows (probe : String → Option Element) : List String → Bool
  | [] => false
  | sel :: rest =>
    match probe sel with
    | some _ => true
    | none => probeRows probe rest

/-- `TentenDDNSUpdater.update_dns_record`: after the two network-idle waits,
probe for an existing row or cell showing the target IP and return `True`
without further action when one is found; otherwise locate and click the
configure-by-IP control, locate and fill the IP input, locate and click the
submit control, each missing control aborting with `False`; any raise is
caught and yields `False`. -/
def update_dns_record (new_ip : String) (env : UpdateEnv) : Bool × List Act :=
  if env.loadARaises then (false, [])
  else if env.loadBRaises then (false, [])
  else if probeRows env.rowProbe (domain_selectors new_ip) then (true, [])
  else
    match find_element (configuration_by_ip_selectors env.configByIpBtnText) env.btnScope with
    | (none, ftr) => (false, ftr)
    | (some _, ftr) =>
      let t1 := ftr ++ [Act.clickConfigByIp]
      if env.btnClickRaises then (false, t1)
      else
        match find_element ["#ip", "input[type=\"text\"]"] env.inputScope with
        | (none, ftr2) => (false, t1 ++ ftr2)
        | (some _, ftr2) =>
          let t2 := t1 ++ ftr2 ++ [Act.fillIp new_ip]
          if env.fillIpRaises then (false, t2)
          else
            match find_element ["#send", "button[type=\"submit\"]"] env.sendScope with
            | (none, ftr3) => (false, t2 ++ ftr3)
            | (some _, ftr3) =>
              let t3 := t2 ++ ftr3 ++ [Act.clickSubmitUpdate]
              if env.sendClickRaises then (false, t3)
              else if env.loadCRaises then (false, t3)
              else (true, t3)

/-- Which of the three browser handles are live when `cleanup` runs:
`page`/`browser` say whether `self.page` / `self.browser` are non-None, and
`playwright` whether `hasattr(self, 'playwright')` holds. -/
structure Handles where
  page : Bool
  browser : Bool
  playwright : Bool
deriving DecidableEq

/-- Whether each release call would raise if attempted. -/
structure CleanupEnv where
  pageCloseRaises : Bool
  browserCloseRaises : Bool
  playwrightStopRaises : Bool
deriving DecidableEq

/-- The single `try` body of `TentenDDNSUpdater.cleanup`: attempt
`page.close()`, `browser.close()` and `playwright.stop()` in order, skipping
each whose handle is absent; the first raise aborts the remaining steps and
jumps to the `except`.  Returns the list of release steps attempted and
whether the body raised (i.e. whether the `except` branch logged an error). -/
def cleanupBody (h : Handles) (env : CleanupEnv) : List Act × Bool :=
  if h.page && env.pageCloseRaises then ([Act.closePage], true)
  else
    let t1 : List Act := if h.page then [Act.closePage] else []
    if h.browser && env.browserCloseRaises then (t1 ++ [Act.closeBrowser], true)
    else
      let t2 := t1 ++ (if h.browser then [Act.closeBrowser] else [])
      if h.playwright && env.playwrightStopRaises then (t2 ++ [Act.stopPlaywright], true)
      else (t2 ++ (if h.playwright then [Act.stopPlaywright] else []), false)

/-- `TentenDDNSUpdater.cleanup`: run the guarded body; a raise inside it is
caught and logged, so `cleanup` itself always returns normally.  The trace
starts with an `Act.cleanupCall` marker recording the invocation. -/
def cleanup (h : Handles) (env : CleanupEnv) : List Act :=
  Act.cleanupCall :: (cleanupBody h env).1

/-- Environment of one `run()` call.  `targetIp` is the optional argument;
`ipOutcome` drives `get_current_ip` when it is absent.  When `init_browser`
raises, `handlesOnInitFail` records which handles had already been set (the
source sets `self.playwright` before launching the context); on success all
three handles are live.  `loginEnvs k` is the environment of the k-th
`login()` invocation (0-based). -/
structure RunEnv where
  targetIp : Option String
  ipOutcome : String → ServiceOutcome
  initBrowserRaises : Bool
  handlesOnInitFail : Handles
  loginEnvs : Nat → LoginEnv
  updateEnv : UpdateEnv
  cleanupEnv : CleanupEnv

/-- The target-IP step of `run`: use the explicit argument when given,
otherwise call `get_current_ip`. -/
def ipStep (env : RunEnv) : Except String String :=
  match env.targetIp with
  | some ip => Except.ok ip
  | none => get_current_ip env.ipOutcome

/-- The `while not success and retries < attempts` loop of `run`, written
with `remaining = attempts - retries` as the structural argument (the source
fixes `attempts = 3`).  `calls` counts `login()` invocations made so far and
indexes `envs`; the accumulated trace is threaded through.  Returns the final
`success`, the total number of `login()` invocations, and the trace. -/
def loginLoopAux (envs : Nat → LoginEnv) :
    Nat → Bool → Nat → List Act → Bool × Nat × List Act
  | 0, success, calls, tr => (success, calls, tr)
  | _ + 1, true, calls, tr => (true, calls, tr)
  | remaining + 1, false, calls, tr =>
    let r := login (envs calls)
    loginLoopAux envs remaining r.1 (calls + 1) (tr ++ r.2)

/-- The login section of `run`: one initial `login()` followed by the retry
loop with `attempts = 3`. -/
def loginSection (envs : Nat → LoginEnv) : Bool × Nat × List Act :=
  loginLoopAux envs 3 (login (envs 0)).1 1 (login (envs 0)).2

/-- The `try` body of `TentenDDNSUpdater.run`: resolve the target IP (a raise
is caught by the `except` and yields `False`), initialise the browser
(likewise), run the login section, and on login success run the DNS update.
Also returns the handles that are live when the `finally` block runs. -/
def runTryBody (env : RunEnv) : Bool × List Act × Handles :=
  match ipStep env with
  | Except.error _ => (false, [], ⟨false, false, false⟩)
  | Except.ok ip =>
    if env.initBrowserRaises then (false, [], env.handlesOnInitFail)
    else if (loginSection env.loginEnvs).1 then
      ((update_dns_record ip env.updateEnv).1,
       (loginSection env.loginEnvs).2.2 ++ (update_dns_record ip env.updateEnv).2,
       ⟨true, true, true⟩)
    else (false, (loginSection env.loginEnvs).2.2, ⟨true, true, true⟩)

/-- `TentenDDNSUpdater.run`: the try/except body followed by the `finally`
call to `cleanup` (which never raises), whose trace is appended; the result
is the body's result. -/
def run (env : RunEnv) : Bool × List Act :=
  ((runTryBody env).1,
   (runTryBody env).2.1 ++ cleanup (runTryBody env).2.2 env.cleanupEnv)

/-- Number of `Act.loginCall` markers in a trace, i.e. the number of
`login()` invocations it records. -/
def countLoginCalls : List Act → Nat
  | [] => 0
  | Act.loginCall :: tr => countLoginCalls tr + 1
  | _ :: tr => countLoginCalls tr

theorem countLoginCalls_append (a b : List Act) :
    countLoginCalls (a ++ b) = countLoginCalls a + countLoginCalls b := by
  induction a with
  | nil => simp [countLoginCalls]
  | cons x xs ih =>
    cases x
    all_goals simp [countLoginCalls, ih]
    omega

theorem find_element_trace_focusOnly (sels : List String) (scope : String → QueryResult) :
    ∀ a ∈ (find_element sels scope).2, ∃ e, a = Act.focusAttempt e := by
  induction sels with
  | nil => simp [find_element]
  | cons sel rest ih =>
    intro a ha
    unfold find_element at ha
    cases hq : scope sel <;> rw [hq] at ha
    case found e =>
      cases hin : isInputLikeJS e <;> simp [hin] at ha
      cases hf : e.focusRaises <;> simp [hf] at ha
      · exact ⟨e, ha⟩
      · rcases ha with ha | ha
        · exact ⟨e, ha⟩
        · exact ih a ha
    case notFound => exact ih a ha
    case raises => exact ih a ha

theorem countLoginCalls_of_focusOnly :
    ∀ tr : List Act, (∀ a ∈ tr, ∃ e, a = Act.focusAttempt e) → countLoginCalls tr = 0 := by
  intro tr
  induction tr with
  | nil => intro _; simp [countLoginCalls]
  | cons x xs ih =>
    intro h
    rcases h x (by simp) with ⟨e, rfl⟩
    simpa [countLoginCalls] using ih (fun a ha => h a (by simp [ha]))

theorem countLoginCalls_find_element (sels : List String) (scope : String → QueryResult) :
    countLoginCalls (find_element sels scope).2 = 0 :=
  countLoginCalls_of_focusOnly _ (find_element_trace_focusOnly sels scope)

theorem countLoginCalls_check_login_status (url : String) (errScope : String → QueryResult) :
    countLoginCalls (check_login_status url errScope).2 = 0 := by
  unfold check_login_status
  split
  · simp [countLoginCalls]
  · rcases hm : find_element ERROR_SELECTORS errScope with ⟨r, tr⟩
    have := countLoginCalls_find_element ERROR_SELECTORS errScope
    rw [hm] at this
    cases r <;> simp [this]

theorem countLoginCalls_loginSubmitPhase (env : LoginEnv) (t : List Act) :
    countLoginCalls (loginSubmitPhase env t).2 = countLoginCalls t := by
  have hc := countLoginCalls_check_login_status env.urlAfterSubmit env.errScope
  unfold loginSubmitPhase
  repeat' split
  all_goals simp_all [countLoginCalls, countLoginCalls_append]
  all_goals try split
  all_goals simp_all [countLoginCalls, countLoginCalls_append]

theorem countLoginCalls_loginFormPhase (env : LoginEnv) (t : List Act) :
    countLoginCalls (loginFormPhase env t).2 = countLoginCalls t := by
  have hu := countLoginCalls_find_element USERNAME_SELECTORS env.userScope
  have hp := countLoginCalls_find_element PASSWORD_SELECTORS env.passScope
  have hs := countLoginCalls_find_element SUBMIT_SELECTORS env.submitScope
  unfold loginFormPhase
  repeat' split
  all_goals simp_all [countLoginCalls, countLoginCalls_append,
    countLoginCalls_loginSubmitPhase]

theorem countLoginCalls_loginBody (env : LoginEnv) :
    countLoginCalls (loginBody env).2 = 0 := by
  unfold loginBody
  repeat' split
  all_goals simp_all [countLoginCalls, countLoginCalls_loginFormPhase]

theorem countLoginCalls_login (env : LoginEnv) :
    countLoginCalls (login env).2 = 1 := by
  simp [login, countLoginCalls, countLoginCalls_loginBody]

theorem countLoginCalls_update_dns_record (new_ip : String) (env : UpdateEnv) :
    countLoginCalls (update_dns_record new_ip env).2 = 0 := by
  have hb := countLoginCalls_find_element
    (configuration_by_ip_selectors env.configByIpBtnText) env.btnScope
  have hi := countLoginCalls_find_element ["#ip", "input[type=\"text\"]"] env.inputScope
  have hs := countLoginCalls_find_element ["#send", "button[type=\"submit\"]"] env.sendScope
  unfold update_dns_record
  repeat' split
  all_goals simp_all [countLoginCalls, countLoginCalls_append]

theorem countLoginCalls_cleanup (h : Handles) (env : CleanupEnv) :
    countLoginCalls (cleanup h env) = 0 := by
  unfold cleanup cleanupBody
  repeat' split
  all_goals simp_all [countLoginCalls, countLoginCalls_append]

theorem loginLoopAux_count (envs : Nat → LoginEnv) :
    ∀ (rem : Nat) (s : Bool) (calls : Nat) (tr : List Act),
      calls ≤ (loginLoopAux envs rem s calls tr).2.1 ∧
      (loginLoopAux envs rem s calls tr).2.1 ≤ calls + rem ∧
      countLoginCalls (loginLoopAux envs rem s calls tr).2.2 =
        countLoginCalls tr + ((loginLoopAux envs rem s calls tr).2.1 - calls) := by
  intro rem
  induction rem with
  | zero => intro s calls tr; simp [loginLoopAux]
  | succ n ih =>
    intro s calls tr
    cases s with
    | true => simp [loginLoopAux]
    | false =>
      simp only [loginLoopAux, Bool.false_eq_true, if_false]
      rcases ih (login (envs calls)).1 (calls + 1) (tr ++ (login (envs calls)).2)
        with ⟨h1, h2, h3⟩
      refine ⟨by omega, by omega, ?_⟩
      rw [h3, countLoginCalls_append, countLoginCalls_login]
      omega

theorem loginLoopAux_false (envs : Nat → LoginEnv) :
    ∀ (rem : Nat) (s : Bool) (calls : Nat) (tr : List Act),
      (loginLoopAux envs rem s calls tr).1 = false →
      s = false ∧ (loginLoopAux envs rem s calls tr).2.1 = calls + rem ∧
      ∀ j, calls ≤ j → j < calls + rem → (login (envs j)).1 = false := by
  intro rem
  induction rem with
  | zero =>
    intro s calls tr h
    refine ⟨by simpa [loginLoopAux] using h, by simp [loginLoopAux], ?_⟩
    intro j hj1 hj2
    omega
  | succ n ih =>
    intro s calls tr h
    cases s with
    | true => simp [loginLoopAux] at h
    | false =>
      simp only [loginLoopAux, Bool.false_eq_true, if_false] at h ⊢
      rcases ih (login (envs calls)).1 (calls + 1) (tr ++ (login (envs calls)).2) h
        with ⟨h1, h2, h3⟩
      refine ⟨trivial, by omega, ?_⟩
      intro j hj1 hj2
      rcases Nat.eq_or_lt_of_le hj1 with hj | hj
      · rw [← hj]; exact h1
      · exact h3 j (by omega) (by omega)

theorem pollAux_elapsed_lt (env : PollEnv) (timeoutMs elapsed k : Nat)
    (h : elapsed < timeoutMs + 1000) :
    (pollAux env timeoutMs elapsed k).2 < timeoutMs + 1000 := by
  unfold pollAux
  by_cases hlt : elapsed < timeoutMs
  · rw [if_pos hlt]
    by_cases hc : env.completedAt k = true
    · rw [if_pos hc]
      exact h
    · rw [if_neg hc]
      have hs := (env.sleepsGood k).2
      exact pollAux_elapsed_lt env timeoutMs (elapsed + env.sleeps k) (k + 1) (by omega)
  · rw [if_neg hlt]
    exact h
termination_by timeoutMs - elapsed
decreasing_by
  have := (env.sleepsGood k).1
  omega

theorem pollAux_completed (env : PollEnv) (timeoutMs elapsed k : Nat)
    (h : (pollAux env timeoutMs elapsed k).1 = true) :
    ∃ j, env.completedAt j = true := by
  by_cases hlt : elapsed < timeoutMs
  · by_cases hc : env.completedAt k = true
    · exact ⟨k, hc⟩
    · apply pollAux_completed env timeoutMs (elapsed + env.sleeps k) (k + 1)
      unfold pollAux at h
      rw [if_pos hlt, if_neg hc] at h
      exact h
  · exfalso
    unfold pollAux at h
    rw [if_neg hlt] at h
    simp at h
termination_by timeoutMs - elapsed
decreasing_by
  have := (env.sleepsGood k).1
  omega

theorem getIpLoop_eq_none_iff (l : List ServiceOutcome) :
    getIpLoop l = none ↔ ∀ o ∈ l, serviceFails o = true := by
  induction l with
  | nil => simp [getIpLoop]
  | cons o rest ih =>
    cases o with
    | raises => simp [getIpLoop, serviceFails, ih]
    | response r =>
      by_cases h : r.status = 200
      · simp [getIpLoop, h, serviceFails]
      · simp [getIpLoop, h, serviceFails, ih]

theorem getIpLoop_first (pre : List ServiceOutcome) (r : HttpResponse)
    (suf : List ServiceOutcome)
    (hpre : ∀ o ∈ pre, serviceFails o = true) (h200 : r.status = 200) :
    getIpLoop (pre ++ ServiceOutcome.response r :: suf) = some r.text.trim := by
  induction pre with
  | nil => simp [getIpLoop, h200]
  | cons o rest ih =>
    have hrest : ∀ x ∈ rest, serviceFails x = true :=
      fun x hx => hpre x (by simp [hx])
    cases o with
    | raises => simpa [getIpLoop] using ih hrest
    | response q =>
      have hq := hpre (ServiceOutcome.response q) (by simp)
      simp only [serviceFails, bne_iff_ne, ne_eq] at hq
      simpa [getIpLoop, hq] using ih hrest

theorem loginSubmitPhase_mem (env : LoginEnv) (t : List Act) (a : Act) (ha : a ∈ t) :
    a ∈ (loginSubmitPhase env t).2 := by
  unfold loginSubmitPhase
  repeat' split
  all_goals simp_all
  all_goals try split
  all_goals simp_all

/-- An INPUT element, as the DOM would hand back for the first username
selector. -/
def usernameInput : Element := ⟨"INPUT", "", false⟩

/-- A scope in which exactly the first username selector,
`input[name="username"]`, matches (an input field). -/
def usernameOnlyScope : String → QueryResult := fun sel =>
  if sel == "input[name=\"username\"]" then QueryResult.found usernameInput
  else QueryResult.notFound

/-- C3: the locator does return the first element in list order and `none`
when nothing matches, but it never focuses anything: the input-like check
`el.tagName.toLowerCase() in ["input", "textarea"]` uses the JavaScript `in`
operator, which tests property keys of the array (`"0"`, `"1"`, `"length"`),
so it is false for every real tag name — here the INPUT element matched by
the first username selector is returned unfocused, against the claim that
input-like controls are focused. -/
theorem find_element_never_focuses :
    find_element USERNAME_SELECTORS usernameOnlyScope = (some usernameInput, [])
    ∧ isInputLikeJS usernameInput = false
    ∧ (∀ e : Element,
        strToLower e.tagName = "input" ∨ strToLower e.tagName = "textarea" →
        isInputLikeJS e = false) := by
  refine ⟨by decide, by decide, ?_⟩
  intro e he
  unfold isInputLikeJS jsInArray
  rcases he with he | he <;> rw [he] <;> decide

theorem find_element_never_focuses_witness :
    strToLower (Element.mk "INPUT" "" false).tagName = "input"
    ∧ isInputLikeJS (Element.mk "INPUT" "" false) = false :=
  ⟨by decide, find_element_never_focuses.2.2 ⟨"INPUT", "", false⟩ (Or.inl (by decide))⟩

/-- C4: public-IP resolution fails (raises) exactly when every configured
service, tried in the fixed `IP_SERVICES` order, fails to produce an HTTP
200 response; and when the services before `u` all fail and `u` answers 200,
the result is `u`'s whitespace-trimmed body. -/
theorem get_current_ip_first_success (outcome : String → ServiceOutcome) :
    ((∃ e, get_current_ip outcome = Except.error e) ↔
      ∀ u ∈ IP_SERVICES, serviceFails (outcome u) = true)
    ∧ (∀ pre u suf, IP_SERVICES = pre ++ u :: suf →
        (∀ v ∈ pre, serviceFails (outcome v) = true) →
        ∀ r, outcome u = ServiceOutcome.response r → r.status = 200 →
        get_current_ip outcome = Except.ok r.text.trim) := by
  constructor
  · unfold get_current_ip
    rcases hg : getIpLoop (IP_SERVICES.map outcome) with _ | ip
    · constructor
      · intro _
        have hall := (getIpLoop_eq_none_iff (IP_SERVICES.map outcome)).1 hg
        intro u hu
        exact hall (outcome u) (List.mem_map_of_mem outcome hu)
      · intro _
        exact ⟨_, rfl⟩
    · constructor
      · rintro ⟨e, he⟩
        exact Except.noConfusion he
      · intro hall
        have hnone : getIpLoop (IP_SERVICES.map outcome) = none := by
          refine (getIpLoop_eq_none_iff _).2 ?_
          intro o ho
          rcases List.mem_map.1 ho with ⟨u, hu, rfl⟩
          exact hall u hu
        rw [hg] at hnone
        exact Option.noConfusion hnone
  · intro pre u suf hsplit hpre r hr h200
    unfold get_current_ip
    have hmap : IP_SERVICES.map outcome =
        pre.map outcome ++ ServiceOutcome.response r :: suf.map outcome := by
      rw [hsplit]
      simp [hr]
    rw [hmap, getIpLoop_first _ _ _ ?_ h200]
    intro o ho
    rcases List.mem_map.1 ho with ⟨v, hv, rfl⟩
    exact hpre v hv

/-- The network seen by the C4 witness: the first service raises, the second
answers 200 with a padded body, the third is unreachable. -/
def c4Outcome : String → ServiceOutcome := fun u =>
  if u == "https://ifconfig.me/ip" then
    ServiceOutcome.response ⟨200, " 203.0.113.7\n"⟩
  else ServiceOutcome.raises

theorem get_current_ip_first_success_witness :
    (∀ v ∈ (["https://api.ipify.org"] : List String),
        serviceFails (c4Outcome v) = true)
    ∧ get_current_ip c4Outcome =
        Except.ok (HttpResponse.mk 200 " 203.0.113.7\n").text.trim :=
  ⟨by decide, (get_current_ip_first_success c4Outcome).2
      ["https://api.ipify.org"] "https://ifconfig.me/ip" ["https://icanhazip.com"]
      rfl (by decide) ⟨200, " 203.0.113.7\n"⟩ (by decide) rfl⟩

/-- A poll environment whose random sleeps all draw 500 ms and whose
completion check never fires. -/
def pollNever : PollEnv :=
  ⟨fun _ => false, fun _ => 500, fun _ => ⟨Nat.le_refl 500, by norm_num⟩⟩

/-- C5: when the URL after navigating to the DNS settings page does not
contain "login" (case-insensitively), `login` reports success immediately:
the trace holds only the invocation marker and the navigation, so no
username or password fill and no submit click occurred. -/
theorem login_skips_when_already_authenticated (env : LoginEnv)
    (h1 : env.loadStartRaises = false) (h2 : env.gotoRaises = false)
    (h3 : strContainsB (strToLower env.urlAfterGoto) "login" = false) :
    (login env).1 = true
    ∧ (login env).2 = [Act.loginCall, Act.gotoSettings]
    ∧ (∀ s, Act.fillUsername s ∉ (login env).2)
    ∧ (∀ s, Act.fillPassword s ∉ (login env).2)
    ∧ Act.clickSubmitLogin ∉ (login env).2 := by
  simp [login, loginBody, h1, h2, h3]

/-- Login environment for the C5 witness: the session cookie is still valid,
so the settings page keeps its own URL. -/
def c5LoginEnv : LoginEnv :=
  { loadStartRaises := false
    username := "alice"
    password := "hunter2"
    gotoRaises := false
    urlAfterGoto := "https://domain.tenten.vn/ApiDnsSetting"
    waitUserSelRaises := false
    userScope := fun _ => QueryResult.notFound
    fillUserRaises := false
    passScope := fun _ => QueryResult.notFound
    fillPassRaises := false
    submitScope := fun _ => QueryResult.notFound
    loadPreSubmitRaises := false
    poll := pollNever
    clickRaises := false
    loadPostSubmitRaises := false
    urlAfterSubmit := ""
    errScope := fun _ => QueryResult.notFound
    gotoAfterRaises := false
    loadFinalRaises := false }

theorem login_skips_when_already_authenticated_witness :
    strContainsB (strToLower c5LoginEnv.urlAfterGoto) "login" = false
    ∧ (login c5LoginEnv).1 = true
    ∧ (login c5LoginEnv).2 = [Act.loginCall, Act.gotoSettings] :=
  ⟨by decide,
   (login_skips_when_already_authenticated c5LoginEnv rfl rfl (by decide)).1,
   (login_skips_when_already_authenticated c5LoginEnv rfl rfl (by decide)).2.1⟩

/-- C6: when the probe finds an existing row or cell displaying the target
IP, `update_dns_record` reports success with an empty action trace: the
configure-by-IP control is not clicked, no IP is filled, nothing is
submitted. -/
theorem update_skips_when_row_exists (ip : String) (env : UpdateEnv)
    (h1 : env.loadARaises = false) (h2 : env.loadBRaises = false)
    (h3 : probeRows env.rowProbe (domain_selectors ip) = true) :
    (update_dns_record ip env).1 = true
    ∧ (update_dns_record ip env).2 = []
    ∧ Act.clickConfigByIp ∉ (update_dns_record ip env).2
    ∧ (∀ s, Act.fillIp s ∉ (update_dns_record ip env).2)
    ∧ Act.clickSubmitUpdate ∉ (update_dns_record ip env).2 := by
  simp [update_dns_record, h1, h2, h3]

/-- Update environment for the C6 witness: a row showing the target IP is
already on the page. -/
def c6UpdateEnv : UpdateEnv :=
  { configByIpBtnText := "Cấu hình IP"
    loadARaises := false
    loadBRaises := false
    rowProbe := fun sel =>
      if sel == "tr:has-text(\"198.51.100.9\")" then
        some ⟨"TR", "198.51.100.9", false⟩
      else none
    btnScope := fun _ => QueryResult.notFound
    btnClickRaises := false
    inputScope := fun _ => QueryResult.notFound
    fillIpRaises := false
    sendScope := fun _ => QueryResult.notFound
    sendClickRaises := false
    loadCRaises := false }

theorem update_skips_when_row_exists_witness :
    probeRows c6UpdateEnv.rowProbe (domain_selectors "198.51.100.9") = true
    ∧ (update_dns_record "198.51.100.9" c6UpdateEnv).1 = true
    ∧ (update_dns_record "198.51.100.9" c6UpdateEnv).2 = [] :=
  ⟨by decide,
   (update_skips_when_row_exists "198.51.100.9" c6UpdateEnv rfl rfl (by decide)).1,
   (update_skips_when_row_exists "198.51.100.9" c6UpdateEnv rfl rfl (by decide)).2.1⟩

theorem focusOnly_not_mem (sels : List String) (scope : String → QueryResult) (a : Act)
    (hna : ∀ e, a ≠ Act.focusAttempt e) : a ∉ (find_element sels scope).2 := by
  intro hmem
  rcases find_element_trace_focusOnly sels scope a hmem with ⟨e, he⟩
  exact hna e he

/-- C7: with no existing row showing the target IP, a missing configure-by-IP
button, a missing IP input, or a missing submit control each make
`update_dns_record` report failure, and no later step of the flow is
performed: with the button missing nothing is clicked, filled or submitted;
with the input missing nothing is filled or submitted; with the submit
control missing nothing is submitted. -/
theorem update_missing_control_fails (ip : String) (env : UpdateEnv)
    (h1 : env.loadARaises = false) (h2 : env.loadBRaises = false)
    (h3 : probeRows env.rowProbe (domain_selectors ip) = false) :
    ((find_element (configuration_by_ip_selectors env.configByIpBtnText)
        env.btnScope).1 = none →
      (update_dns_record ip env).1 = false
      ∧ Act.clickConfigByIp ∉ (update_dns_record ip env).2
      ∧ (∀ s, Act.fillIp s ∉ (update_dns_record ip env).2)
      ∧ Act.clickSubmitUpdate ∉ (update_dns_record ip env).2)
    ∧ ((find_element (configuration_by_ip_selectors env.configByIpBtnText)
        env.btnScope).1.isSome = true →
      (find_element ["#ip", "input[type=\"text\"]"] env.inputScope).1 = none →
      (update_dns_record ip env).1 = false
      ∧ (∀ s, Act.fillIp s ∉ (update_dns_record ip env).2)
      ∧ Act.clickSubmitUpdate ∉ (update_dns_record ip env).2)
    ∧ ((find_element (configuration_by_ip_selectors env.configByIpBtnText)
        env.btnScope).1.isSome = true →
      (find_element ["#ip", "input[type=\"text\"]"] env.inputScope).1.isSome = true →
      (find_element ["#send", "button[type=\"submit\"]"] env.sendScope).1 = none →
      (update_dns_record ip env).1 = false
      ∧ Act.clickSubmitUpdate ∉ (update_dns_record ip env).2) := by
  have nfc : ∀ s : String, ∀ e : Element, Act.fillIp s ≠ Act.focusAttempt e :=
    fun s e h => Act.noConfusion h
  have ncc : ∀ e : Element, Act.clickConfigByIp ≠ Act.focusAttempt e :=
    fun e h => Act.noConfusion h
  have nsc : ∀ e : Element, Act.clickSubmitUpdate ≠ Act.focusAttempt e :=
    fun e h => Act.noConfusion h
  refine ⟨?_, ?_, ?_⟩
  · intro hb
    rcases hbtn : find_element (configuration_by_ip_selectors env.configByIpBtnText)
        env.btnScope with ⟨b, btr⟩
    have hbm1 : Act.clickConfigByIp ∉ btr := by
      have := focusOnly_not_mem (configuration_by_ip_selectors env.configByIpBtnText) env.btnScope Act.clickConfigByIp ncc
      rw [hbtn] at this; exact this
    have hbm2 : ∀ s, Act.fillIp s ∉ btr := by
      intro s
      have := focusOnly_not_mem (configuration_by_ip_selectors env.configByIpBtnText) env.btnScope (Act.fillIp s) (nfc s)
      rw [hbtn] at this; exact this
    have hbm3 : Act.clickSubmitUpdate ∉ btr := by
      have := focusOnly_not_mem (configuration_by_ip_selectors env.configByIpBtnText) env.btnScope Act.clickSubmitUpdate nsc
      rw [hbtn] at this; exact this
    rw [hbtn] at hb
    simp only at hb
    subst hb
    simp [update_dns_record, h1, h2, h3, hbtn, hbm1, hbm2, hbm3]
  · intro hb hi
    rcases hbtn : find_element (configuration_by_ip_selectors env.configByIpBtnText)
        env.btnScope with ⟨b, btr⟩
    rcases hinp : find_element ["#ip", "input[type=\"text\"]"] env.inputScope
        with ⟨i, itr⟩
    have hbm2 : ∀ s, Act.fillIp s ∉ btr := by
      intro s
      have := focusOnly_not_mem (configuration_by_ip_selectors env.configByIpBtnText) env.btnScope (Act.fillIp s) (nfc s)
      rw [hbtn] at this; exact this
    have hbm3 : Act.clickSubmitUpdate ∉ btr := by
      have := focusOnly_not_mem (configuration_by_ip_selectors env.configByIpBtnText) env.btnScope Act.clickSubmitUpdate nsc
      rw [hbtn] at this; exact this
    have him2 : ∀ s, Act.fillIp s ∉ itr := by
      intro s
      have := focusOnly_not_mem ["#ip", "input[type=\"text\"]"] env.inputScope (Act.fillIp s) (nfc s)
      rw [hinp] at this; exact this
    have him3 : Act.clickSubmitUpdate ∉ itr := by
      have := focusOnly_not_mem ["#ip", "input[type=\"text\"]"] env.inputScope Act.clickSubmitUpdate nsc
      rw [hinp] at this; exact this
    rw [hbtn] at hb
    rw [hinp] at hi
    simp only at hb hi
    cases b with
    | none => simp at hb
    | some bv =>
      subst hi
      by_cases hbc : env.btnClickRaises = true
      · simp [update_dns_record, h1, h2, h3, hbtn, hbc, hbm2, hbm3]
      · simp only [Bool.not_eq_true] at hbc
        simp [update_dns_record, h1, h2, h3, hbtn, hinp, hbc, hbm2, hbm3, him2, him3]
  · intro hb hi hs
    rcases hbtn : find_element (configuration_by_ip_selectors env.configByIpBtnText)
        env.btnScope with ⟨b, btr⟩
    rcases hinp : find_element ["#ip", "input[type=\"text\"]"] env.inputScope
        with ⟨i, itr⟩
    rcases hsend : find_element ["#send", "button[type=\"submit\"]"] env.sendScope
        with ⟨sd, sdtr⟩
    have hbm3 : Act.clickSubmitUpdate ∉ btr := by
      have := focusOnly_not_mem (configuration_by_ip_selectors env.configByIpBtnText) env.btnScope Act.clickSubmitUpdate nsc
      rw [hbtn] at this; exact this
    have him3 : Act.clickSubmitUpdate ∉ itr := by
      have := focusOnly_not_mem ["#ip", "input[type=\"text\"]"] env.inputScope Act.clickSubmitUpdate nsc
      rw [hinp] at this; exact this
    have hsm3 : Act.clickSubmitUpdate ∉ sdtr := by
      have := focusOnly_not_mem ["#send", "button[type=\"submit\"]"] env.sendScope Act.clickSubmitUpdate nsc
      rw [hsend] at this; exact this
    rw [hbtn] at hb
    rw [hinp] at hi
    rw [hsend] at hs
    simp only at hb hi hs
    cases b with
    | none => simp at hb
    | some bv =>
      cases i with
      | none => simp at hi
      | some iv =>
        subst hs
        by_cases hbc : env.btnClickRaises = true
        · simp [update_dns_record, h1, h2, h3, hbtn, hbc, hbm3]
        · simp only [Bool.not_eq_true] at hbc
          by_cases hfc : env.fillIpRaises = true
          · simp [update_dns_record, h1, h2, h3, hbtn, hinp, hbc, hfc, hbm3, him3]
          · simp only [Bool.not_eq_true] at hfc
            simp [update_dns_record, h1, h2, h3, hbtn, hinp, hsend, hbc, hfc,
              hbm3, him3, hsm3]

theorem loginFormPhase_click_mem (env : LoginEnv) (t : List Act)
    (h4 : env.waitUserSelRaises = false)
    (h5 : (find_element USERNAME_SELECTORS env.userScope).1.isSome = true)
    (h6 : env.fillUserRaises = false)
    (h7 : (find_element PASSWORD_SELECTORS env.passScope).1.isSome = true)
    (h8 : env.fillPassRaises = false)
    (h9 : (find_element SUBMIT_SELECTORS env.submitScope).1.isSome = true)
    (h10 : env.loadPreSubmitRaises = false) :
    Act.clickSubmitLogin ∈ (loginFormPhase env t).2 := by
  rcases hu : find_element USERNAME_SELECTORS env.userScope with ⟨ou, utr⟩
  rcases hp : find_element PASSWORD_SELECTORS env.passScope with ⟨op, ptr⟩
  rcases hsb : find_element SUBMIT_SELECTORS env.submitScope with ⟨os, btr⟩
  rw [hu] at h5
  rw [hp] at h7
  rw [hsb] at h9
  simp only at h5 h7 h9
  cases ou with
  | none => simp at h5
  | some u =>
    cases op with
    | none => simp at h7
    | some p =>
      cases os with
      | none => simp at h9
      | some sb =>
        simp only [loginFormPhase, h4, h6, h8, h10, hu, hp, hsb,
          Bool.false_eq_true, if_false]
        exact loginSubmitPhase_mem env _ _ (by simp)

/-- C8: the recaptcha poll always returns within its time bound (its elapsed
time stays under the bound plus one maximal sleep), it reports completion
only when some periodic check actually saw a completion signal, and whenever
the login flow reaches the poll (all fields located, no earlier raise) the
submit click is recorded in the trace — whatever the poll returned, since
its result is never tested. -/
theorem recaptcha_poll_bounded_then_submit_clicked (lenv : LoginEnv) (tsec : Nat)
    (h1 : lenv.loadStartRaises = false) (h2 : lenv.gotoRaises = false)
    (h3 : strContainsB (strToLower lenv.urlAfterGoto) "login" = true)
    (h4 : lenv.waitUserSelRaises = false)
    (h5 : (find_element USERNAME_SELECTORS lenv.userScope).1.isSome = true)
    (h6 : lenv.fillUserRaises = false)
    (h7 : (find_element PASSWORD_SELECTORS lenv.passScope).1.isSome = true)
    (h8 : lenv.fillPassRaises = false)
    (h9 : (find_element SUBMIT_SELECTORS lenv.submitScope).1.isSome = true)
    (h10 : lenv.loadPreSubmitRaises = false) :
    (wait_for_recaptcha_completion lenv.poll tsec).2 < tsec * 1000 + 1000
    ∧ ((wait_for_recaptcha_completion lenv.poll tsec).1 = true →
        ∃ k, lenv.poll.completedAt k = true)
    ∧ Act.clickSubmitLogin ∈ (login lenv).2 := by
  refine ⟨pollAux_elapsed_lt lenv.poll (tsec * 1000) 0 0 (by omega),
    fun h => pollAux_completed lenv.poll (tsec * 1000) 0 0 h, ?_⟩
  simp only [login, loginBody, h1, h2, h3, Bool.false_eq_true, if_false,
    Bool.not_true, List.mem_cons]
  exact Or.inr (loginFormPhase_click_mem lenv _ h4 h5 h6 h7 h8 h9 h10)

/-- Login environment for the C8 witness: the page redirects to the login
form and every control is present. -/
def c8LoginEnv : LoginEnv :=
  { loadStartRaises := false
    username := "alice"
    password := "hunter2"
    gotoRaises := false
    urlAfterGoto := "https://domain.tenten.vn/login?next=ApiDnsSetting"
    waitUserSelRaises := false
    userScope := fun _ => QueryResult.found ⟨"INPUT", "", false⟩
    fillUserRaises := false
    passScope := fun _ => QueryResult.found ⟨"INPUT", "", false⟩
    fillPassRaises := false
    submitScope := fun _ => QueryResult.found ⟨"BUTTON", "Login", false⟩
    loadPreSubmitRaises := false
    poll := pollNever
    clickRaises := false
    loadPostSubmitRaises := false
    urlAfterSubmit := "https://domain.tenten.vn/ApiDnsSetting"
    errScope := fun _ => QueryResult.notFound
    gotoAfterRaises := false
    loadFinalRaises := false }

theorem recaptcha_poll_bounded_then_submit_clicked_witness :
    strContainsB (strToLower c8LoginEnv.urlAfterGoto) "login" = true
    ∧ (wait_for_recaptcha_completion c8LoginEnv.poll 30).2 < 30 * 1000 + 1000
    ∧ Act.clickSubmitLogin ∈ (login c8LoginEnv).2 :=
  ⟨by decide,
   (recaptcha_poll_bounded_then_submit_clicked c8LoginEnv 30 rfl rfl (by decide)
      rfl (by decide) rfl (by decide) rfl (by decide) rfl).1,
   (recaptcha_poll_bounded_then_submit_clicked c8LoginEnv 30 rfl rfl (by decide)
      rfl (by decide) rfl (by decide) rfl (by decide) rfl).2.2⟩

/-- Update environment for the C7 witness: no row matches and no control can
be located on the page. -/
def c7UpdateEnv : UpdateEnv :=
  { configByIpBtnText := "Cấu hình IP"
    loadARaises := false
    loadBRaises := false
    rowProbe := fun _ => none
    btnScope := fun _ => QueryResult.notFound
    btnClickRaises := false
    inputScope := fun _ => QueryResult.notFound
    fillIpRaises := false
    sendScope := fun _ => QueryResult.notFound
    sendClickRaises := false
    loadCRaises := false }

theorem update_missing_control_fails_witness :
    probeRows c7UpdateEnv.rowProbe (domain_selectors "198.51.100.9") = false
    ∧ (find_element (configuration_by_ip_selectors c7UpdateEnv.configByIpBtnText)
        c7UpdateEnv.btnScope).1 = none
    ∧ (update_dns_record "198.51.100.9" c7UpdateEnv).1 = false
    ∧ Act.clickSubmitUpdate ∉ (update_dns_record "198.51.100.9" c7UpdateEnv).2 :=
  ⟨by decide, by decide,
   ((update_missing_control_fails "198.51.100.9" c7UpdateEnv rfl rfl
      (by decide)).1 (by decide)).1,
   ((update_missing_control_fails "198.51.100.9" c7UpdateEnv rfl rfl
      (by decide)).1 (by decide)).2.2.2⟩

/-- C9: the cleanup procedure is invoked on every exit path of `run` —
success, caught failure, and exception inside the try body alike — since the
`finally` appends the cleanup trace, which always starts with the
invocation marker, to whatever the body produced. -/
theorem run_always_invokes_cleanup (env : RunEnv) :
    Act.cleanupCall ∈ (run env).2 := by
  simp [run, cleanup, List.mem_append]

theorem loginSection_spec (envs : Nat → LoginEnv) :
    1 ≤ (loginSection envs).2.1 ∧ (loginSection envs).2.1 ≤ 4
    ∧ countLoginCalls (loginSection envs).2.2 = (loginSection envs).2.1
    ∧ ((loginSection envs).1 = false →
        (loginSection envs).2.1 = 4 ∧ ∀ k, k < 4 → (login (envs k)).1 = false) := by
  unfold loginSection
  rcases loginLoopAux_count envs 3 (login (envs 0)).1 1 (login (envs 0)).2
    with ⟨a1, a2, a3⟩
  refine ⟨a1, by omega, ?_, ?_⟩
  · rw [a3, countLoginCalls_login]
    omega
  · intro hf
    rcases loginLoopAux_false envs 3 (login (envs 0)).1 1 (login (envs 0)).2 hf
      with ⟨b1, b2, b3⟩
    refine ⟨by omega, ?_⟩
    intro k hk
    rcases Nat.eq_zero_or_pos k with rfl | hpos
    · exact b1
    · exact b3 k (by omega) (by omega)

theorem run_count_eq (env : RunEnv) :
    countLoginCalls (run env).2 = countLoginCalls (runTryBody env).2.1 := by
  simp [run, countLoginCalls_append, countLoginCalls_cleanup]

/-- C1 (amended): one run makes at most 4 login invocations — the initial
attempt plus up to 3 retries — and when the run reaches the login stage and
reports overall login failure, all 4 invocations were made and every one of
them failed. -/
theorem run_login_attempt_ceiling (env : RunEnv) (ip : String) :
    countLoginCalls (run env).2 ≤ 4
    ∧ (ipStep env = Except.ok ip → env.initBrowserRaises = false →
        (loginSection env.loginEnvs).1 = false →
        (run env).1 = false
        ∧ countLoginCalls (run env).2 = 4
        ∧ ∀ k, k < 4 → (login (env.loginEnvs k)).1 = false) := by
  have hrc := run_count_eq env
  rcases loginSection_spec env.loginEnvs with ⟨s1, s2, s3, s4⟩
  constructor
  · rw [hrc]
    unfold runTryBody
    rcases hip : ipStep env with e | v
    · simp [countLoginCalls]
    · by_cases hinit : env.initBrowserRaises = true
      · simp [hinit, countLoginCalls]
      · simp only [Bool.not_eq_true] at hinit
        by_cases hls : (loginSection env.loginEnvs).1 = true
        · simp [hinit, hls, countLoginCalls_append, countLoginCalls_update_dns_record]
          omega
        · simp only [Bool.not_eq_true] at hls
          simp [hinit, hls]
          omega
  · intro hip hinit hlf
    rcases s4 hlf with ⟨c4, call4⟩
    refine ⟨by simp [run, runTryBody, hip, hinit, hlf], ?_, call4⟩
    rw [hrc]
    simp [runTryBody, hip, hinit, hlf]
    rw [s3]
    exact c4

/-- A login environment whose very first awaited call (the initial
network-idle wait) raises, so the login attempt fails at once. -/
def failingLoginEnv : LoginEnv :=
  { loadStartRaises := true
    username := ""
    password := ""
    gotoRaises := false
    urlAfterGoto := ""
    waitUserSelRaises := false
    userScope := fun _ => QueryResult.notFound
    fillUserRaises := false
    passScope := fun _ => QueryResult.notFound
    fillPassRaises := false
    submitScope := fun _ => QueryResult.notFound
    loadPreSubmitRaises := false
    poll := pollNever
    clickRaises := false
    loadPostSubmitRaises := false
    urlAfterSubmit := ""
    errScope := fun _ => QueryResult.notFound
    gotoAfterRaises := false
    loadFinalRaises := false }

/-- An update environment in which nothing on the page matches (never
reached in the runs that use it). -/
def idleUpdateEnv : UpdateEnv :=
  { configByIpBtnText := ""
    loadARaises := false
    loadBRaises := false
    rowProbe := fun _ => none
    btnScope := fun _ => QueryResult.notFound
    btnClickRaises := false
    inputScope := fun _ => QueryResult.notFound
    fillIpRaises := false
    sendScope := fun _ => QueryResult.notFound
    sendClickRaises := false
    loadCRaises := false }

/-- A run with an explicit target IP in which every login attempt fails. -/
def c1RunEnv : RunEnv :=
  { targetIp := some "203.0.113.7"
    ipOutcome := fun _ => ServiceOutcome.raises
    initBrowserRaises := false
    handlesOnInitFail := ⟨false, false, false⟩
    loginEnvs := fun _ => failingLoginEnv
    updateEnv := idleUpdateEnv
    cleanupEnv := ⟨false, false, false⟩ }

/-- C1 counterexample: with every login attempt failing, this run makes 4
login invocations — one initial call plus 3 retries — exceeding the claimed
ceiling of 3 total attempts. -/
theorem run_four_login_attempts_counterexample :
    countLoginCalls (run c1RunEnv).2 = 4
    ∧ ¬(countLoginCalls (run c1RunEnv).2 ≤ 3) := by
  constructor
  · decide
  · decide

theorem run_login_attempt_ceiling_witness :
    ipStep c1RunEnv = Except.ok "203.0.113.7"
    ∧ c1RunEnv.initBrowserRaises = false
    ∧ (loginSection c1RunEnv.loginEnvs).1 = false
    ∧ (run c1RunEnv).1 = false
    ∧ (∀ k, k < 4 → (login (c1RunEnv.loginEnvs k)).1 = false) :=
  ⟨rfl, rfl, by decide,
   ((run_login_attempt_ceiling c1RunEnv "203.0.113.7").2 rfl rfl (by decide)).1,
   ((run_login_attempt_ceiling c1RunEnv "203.0.113.7").2 rfl rfl (by decide)).2.2⟩

/-- C2 counterexample: when closing the page raises, neither the
browser-context close nor the engine stop is attempted — the release steps
are guarded together, not independently. -/
theorem cleanup_not_independent_counterexample :
    Act.closePage ∈ cleanup ⟨true, true, true⟩ ⟨true, false, false⟩
    ∧ Act.closeBrowser ∉ cleanup ⟨true, true, true⟩ ⟨true, false, false⟩
    ∧ Act.stopPlaywright ∉ cleanup ⟨true, true, true⟩ ⟨true, false, false⟩ := by
  decide

/-- C2 (amended): the three release steps run inside one shared guard: a
raise while closing the page aborts the context-close and engine-stop
attempts, a raise while closing the context aborts the engine-stop attempt,
and the failure is only logged inside `cleanup` — it never propagates, the
result of `run` being exactly its try-body's result for every environment. -/
theorem cleanup_collective_guard (h : Handles) (env : CleanupEnv) :
    (h.page = true → env.pageCloseRaises = true →
      cleanup h env = [Act.cleanupCall, Act.closePage]
      ∧ Act.closeBrowser ∉ cleanup h env
      ∧ Act.stopPlaywright ∉ cleanup h env)
    ∧ ((h.page && env.pageCloseRaises) = false → h.browser = true →
      env.browserCloseRaises = true → Act.stopPlaywright ∉ cleanup h env)
    ∧ (∀ renv : RunEnv, (run renv).1 = (runTryBody renv).1) := by
  refine ⟨?_, ?_, fun renv => rfl⟩
  · intro hp hr
    simp [cleanup, cleanupBody, hp, hr]
  · intro hpf hb hbr
    cases hpage : h.page
    · simp [cleanup, cleanupBody, hpf, hb, hbr, hpage]
    · rw [hpage] at hpf
      simp only [Bool.true_and] at hpf
      simp [cleanup, cleanupBody, hpf, hb, hbr, hpage]

theorem cleanup_collective_guard_witness :
    cleanup ⟨true, true, true⟩ ⟨true, true, true⟩ = [Act.cleanupCall, Act.closePage]
    ∧ Act.stopPlaywright ∉ cleanup ⟨true, true, true⟩ ⟨true, true, true⟩ :=
  ⟨((cleanup_collective_guard ⟨true, true, true⟩ ⟨true, true, true⟩).1 rfl rfl).1,
   ((cleanup_collective_guard ⟨true, true, true⟩ ⟨true, true, true⟩).1 rfl rfl).2.2⟩

/-- C10: with no page, no browser context and no playwright handle (as when
public-IP resolution fails before browser startup), the guarded cleanup body
attempts nothing and does not raise, `cleanup` completes with just its
invocation marker, and such a run indeed reaches cleanup in exactly that
no-handle state. -/
theorem cleanup_uninitialized_safe (env : CleanupEnv) (renv : RunEnv)
    (h1 : renv.targetIp = none)
    (h2 : ∀ u ∈ IP_SERVICES, serviceFails (renv.ipOutcome u) = true) :
    cleanupBody ⟨false, false, false⟩ env = ([], false)
    ∧ cleanup ⟨false, false, false⟩ env = [Act.cleanupCall]
    ∧ (run renv).2 = cleanup ⟨false, false, false⟩ renv.cleanupEnv := by
  refine ⟨by simp [cleanupBody], by simp [cleanup, cleanupBody], ?_⟩
  have hnone : getIpLoop (IP_SERVICES.map renv.ipOutcome) = none := by
    refine (getIpLoop_eq_none_iff _).2 ?_
    intro o ho
    rcases List.mem_map.1 ho with ⟨u, hu, rfl⟩
    exact h2 u hu
  have hip : ipStep renv = Except.error "Could not determine public IP address" := by
    simp [ipStep, h1, get_current_ip, hnone]
  simp [run, runTryBody, hip]

/-- A run without an explicit target IP in which every IP-echo service is
unreachable, so the flow fails before the browser is ever started. -/
def c10RunEnv : RunEnv :=
  { targetIp := none
    ipOutcome := fun _ => ServiceOutcome.raises
    initBrowserRaises := false
    handlesOnInitFail := ⟨false, false, false⟩
    loginEnvs := fun _ => failingLoginEnv
    updateEnv := idleUpdateEnv
    cleanupEnv := ⟨true, true, true⟩ }

theorem cleanup_uninitialized_safe_witness :
    (∀ u ∈ IP_SERVICES, serviceFails (c10RunEnv.ipOutcome u) = true)
    ∧ cleanupBody ⟨false, false, false⟩ ⟨true, true, true⟩ = ([], false)
    ∧ (run c10RunEnv).2 = cleanup ⟨false, false, false⟩ c10RunEnv.cleanupEnv :=
  ⟨by decide,
   (cleanup_uninitialized_safe ⟨true, true, true⟩ c10RunEnv rfl (by decide)).1,
   (cleanup_uninitialized_safe ⟨true, true, true⟩ c10RunEnv rfl (by decide)).2.2⟩
